import Mathlib

/-!
Verification of the mcp-telegram daemon against its specification.

Shallow embedding of the relevant parts of the source:
- src/mcp_telegram/daemon.py : the HTTP control handlers and the daemon
  lifecycle (run_daemon, daemon_stop);
- src/mcp_telegram/user/client.py : the UserClient methods (get_me,
  send_file, get_messages, search_dialogs, delete_messages).

Conventions of the embedding:
- JSON request fields that may be absent are Option values; Python
  truthiness of strings and integers is modelled explicitly (None, the
  empty string and 0 are falsy).
- Backend round trips (telethon calls) are modelled as parameters: either
  an Except value (the outcome of the awaited call) or a function from the
  call arguments to an Except value.  Raising an exception is the .error
  case; the handlers count how many backend calls they attempt.
- The filesystem PID record and process liveness are modelled as explicit
  state (an Option record content and a liveness predicate on PIDs).
-/

/-- Python truthiness of an optional string field: data.get(k) is falsy
when the key is absent (None) or the value is the empty string. -/
def truthyStr : Option String → Bool
  | none => false
  | some s => !(s == "")

/-- Python truthiness of an optional integer field: falsy when absent
(None) or equal to 0. -/
def truthyInt : Option Int → Bool
  | none => false
  | some n => !(n == 0)

/-- Result dict of UserClient.send_message / send_file:
message_id and chat_id. -/
structure SendResult where
  message_id : Int
  chat_id : Int
deriving DecidableEq, Repr

/-- Result dict of UserClient.download_media: the saved path. -/
structure DownloadResult where
  path : String
deriving DecidableEq, Repr

/-- Result dict of UserClient.edit_message. -/
structure EditResult where
  message_id : Int
deriving DecidableEq, Repr

/-- Result dict of UserClient.delete_messages. -/
structure DeleteResult where
  deleted : Nat
deriving DecidableEq, Repr

/-- Observable outcome of one HTTP control handler: the ok flag, the
error field, the HTTP status, the success payload, and how many backend
calls (get_client plus the client method) were attempted. -/
structure HandlerOut (α : Type) where
  ok : Bool
  error : Option String
  status : Nat
  payload : Option α
  backendCalls : Nat
deriving DecidableEq, Repr

/-- daemon.py handle_send_message: entity is the only required field
(message defaults to the empty string, reply_to to None). -/
def handle_send_message (backend : String → String → Option Int → Except String SendResult)
    (entity : Option String) (message : String) (replyTo : Option Int) :
    HandlerOut SendResult :=
  if !truthyStr entity then
    ⟨false, some "entity is required", 400, none, 0⟩
  else
    match backend (entity.getD "") message replyTo with
    | .ok r => ⟨true, none, 200, some r, 1⟩
    | .error e => ⟨false, some e, 500, none, 1⟩

/-- daemon.py handle_send_file: requires entity and file_path, then
checks Path(file_path).exists() before any client call. -/
def handle_send_file (fileExists : String → Bool)
    (backend : String → String → String → Bool → Except String SendResult)
    (entity filePath : Option String) (caption : String) (voice : Bool) :
    HandlerOut SendResult :=
  if !truthyStr entity || !truthyStr filePath then
    ⟨false, some "entity and file_path are required", 400, none, 0⟩
  else if !fileExists (filePath.getD "") then
    ⟨false, some ("File not found: " ++ filePath.getD ""), 400, none, 0⟩
  else
    match backend (entity.getD "") (filePath.getD "") caption voice with
    | .ok r => ⟨true, none, 200, some r, 1⟩
    | .error e => ⟨false, some e, 500, none, 1⟩

/-- Local filesystem state relevant to send_file: which paths exist and
which of them are readable.  The two are distinct: a directory or a file
without read permission exists without being a readable file. -/
structure FsWorld where
  pathExists : String → Bool
  readable : String → Bool

/-- Python Path(p).exists(), the only filesystem check send_file
performs: it consults existence alone and never readability. -/
def pathExistsPy (fs : FsWorld) (p : String) : Bool :=
  fs.pathExists p

/-- daemon.py handle_download_media: requires entity, message_id and
save_path (one combined validation of all three). -/
def handle_download_media (backend : String → Int → String → Except String DownloadResult)
    (entity : Option String) (messageId : Option Int) (savePath : Option String) :
    HandlerOut DownloadResult :=
  if !truthyStr entity || !truthyInt messageId || !truthyStr savePath then
    ⟨false, some "entity, message_id, and save_path are required", 400, none, 0⟩
  else
    match backend (entity.getD "") (messageId.getD 0) (savePath.getD "") with
    | .ok r => ⟨true, none, 200, some r, 1⟩
    | .error e => ⟨false, some e, 500, none, 1⟩

/-- daemon.py handle_edit_message: requires entity, message_id and text
(one combined validation; Python truthiness also rejects text equal to
the empty string and message_id equal to 0). -/
def handle_edit_message (backend : String → Int → String → Except String EditResult)
    (entity : Option String) (messageId : Option Int) (text : Option String) :
    HandlerOut EditResult :=
  if !truthyStr entity || !truthyInt messageId || !truthyStr text then
    ⟨false, some "entity, message_id, and text are required", 400, none, 0⟩
  else
    match backend (entity.getD "") (messageId.getD 0) (text.getD "") with
    | .ok r => ⟨true, none, 200, some r, 1⟩
    | .error e => ⟨false, some e, 500, none, 1⟩

/-- daemon.py handle_delete_messages: requires entity and a non-empty
message_ids list (data.get defaults the list to [], which is falsy). -/
def handle_delete_messages (backend : String → List Int → Except String DeleteResult)
    (entity : Option String) (messageIds : List Int) :
    HandlerOut DeleteResult :=
  if !truthyStr entity || messageIds.isEmpty then
    ⟨false, some "entity and message_ids are required", 400, none, 0⟩
  else
    match backend (entity.getD "") messageIds with
    | .ok r => ⟨true, none, 200, some r, 1⟩
    | .error e => ⟨false, some e, 500, none, 1⟩

/-- Document attribute of a Telegram media document (the attributes
user/client.py inspects: DocumentAttributeFilename carries a file name,
DocumentAttributeAudio carries a voice flag; anything else is ignored). -/
inductive DocAttr
  | filename (name : String)
  | audio (voice : Bool)
  | otherAttr
deriving DecidableEq, Repr

/-- Media descriptor of a message, as user/client.py distinguishes it:
MessageMediaPhoto, MessageMediaDocument (whose document field may be
None), or any other media class. -/
inductive MediaDesc
  | photo
  | document (doc : Option (List DocAttr))
  | otherMedia
deriving DecidableEq, Repr

/-- One element of the raw backend message stream: a service
pseudo-message (MessageService), an empty placeholder (MessageEmpty), or
a real message with its fields. -/
inductive RawMessage
  | service
  | empty
  | message (id : Int) (date : Option String) (text : Option String)
      (senderId : Option Int) (media : Option MediaDesc)
deriving DecidableEq, Repr

/-- The msg_data dict built by UserClient.get_messages for one real
message. media_type and file_name are absent (none) when the message has
no media or sets no filename attribute. -/
structure MsgDict where
  id : Int
  date : Option String
  text : String
  from_id : Option Int
  has_media : Bool
  media_type : Option String
  file_name : Option String
deriving DecidableEq, Repr

/-- The attribute loop of UserClient.get_messages over a document's
attributes: starts from media_type "document" and no file_name; a
filename attribute sets file_name, an audio attribute overwrites the
media type with "voice" or "audio" depending on its voice flag. -/
def classifyAttrs (attrs : List DocAttr) : String × Option String :=
  attrs.foldl
    (fun acc attr =>
      match attr with
      | .filename n => (acc.1, some n)
      | .audio true => ("voice", acc.2)
      | .audio false => ("audio", acc.2)
      | .otherAttr => acc)
    ("document", none)

/-- Media classification of UserClient.get_messages: photo / document
(refined by the attribute loop when the document is present) / other;
none when the message carries no media. -/
def mediaFields : Option MediaDesc → Option String × Option String
  | none => (none, none)
  | some .photo => (some "photo", none)
  | some (.document none) => (some "document", none)
  | some (.document (some attrs)) =>
      (some (classifyAttrs attrs).1, (classifyAttrs attrs).2)
  | some .otherMedia => (some "other", none)

/-- The msg_data dict UserClient.get_messages builds for a real message
(msg.text or "" collapses an absent text to the empty string). -/
def realMessageDict (id : Int) (date : Option String) (text : Option String)
    (senderId : Option Int) (media : Option MediaDesc) : MsgDict :=
  ⟨id, date, text.getD "", senderId, media.isSome,
    (mediaFields media).1, (mediaFields media).2⟩

/-- Spec-side view of one raw stream element: a real message maps to its
dict, a service or empty pseudo-message to none. -/
def msgDictOf : RawMessage → Option MsgDict
  | .service => none
  | .empty => none
  | .message i d t s m => some (realMessageDict i d t s m)

/-- The iteration loop of UserClient.get_messages over the fetched
stream: service and empty pseudo-messages are skipped with continue,
real messages are appended as dicts. -/
def getMessagesLoop : List RawMessage → List MsgDict
  | [] => []
  | .service :: rest => getMessagesLoop rest
  | .empty :: rest => getMessagesLoop rest
  | .message i d t s m :: rest =>
      realMessageDict i d t s m :: getMessagesLoop rest

/-- UserClient.get_messages: iter_messages(entity, limit=limit) yields at
most limit raw stream elements (newest first), which the loop converts. -/
def get_messages (stream : List RawMessage) (limit : Nat) : List MsgDict :=
  getMessagesLoop (stream.take limit)

/-- daemon.py handle_get_messages: entity is required, limit defaults to
10; on success the messages list is the payload. -/
def handle_get_messages (backend : String → Nat → Except String (List MsgDict))
    (entity : Option String) (limit : Nat) : HandlerOut (List MsgDict) :=
  if !truthyStr entity then
    ⟨false, some "entity is required", 400, none, 0⟩
  else
    match backend (entity.getD "") limit with
    | .ok r => ⟨true, none, 200, some r, 1⟩
    | .error e => ⟨false, some e, 500, none, 1⟩

/-- Value of one field of the user-info dict (id is an integer, the
other fields are strings or None). -/
inductive PyVal
  | pInt (n : Int)
  | pStr (s : String)
  | pNone
deriving DecidableEq, Repr

/-- Map an optional string field of the telethon user object to the dict
value UserClient.get_me stores (None stays None). -/
def optStrVal : Option String → PyVal
  | some s => .pStr s
  | none => .pNone

/-- Telethon user object fields that UserClient.get_me reads. -/
structure TgUser where
  id : Int
  first_name : Option String
  last_name : Option String
  username : Option String
  phone : Option String
deriving DecidableEq, Repr

/-- UserClient.get_me: await connect, await client.get_me(); a truthy
result is mapped to the five-field dict, a None result (for example an
unauthorized session) to the empty dict; exceptions from either await
propagate as errors. -/
def get_me (connect : Except String Unit)
    (fetched : Except String (Option TgUser)) :
    Except String (List (String × PyVal)) :=
  match connect with
  | .error e => .error e
  | .ok _ =>
    match fetched with
    | .error e => .error e
    | .ok (some me) =>
        .ok [("id", .pInt me.id), ("first_name", optStrVal me.first_name),
          ("last_name", optStrVal me.last_name),
          ("username", optStrVal me.username),
          ("phone", optStrVal me.phone)]
    | .ok none => .ok []

/-- UserClient.send_file: await connect, then raise FileNotFoundError if
the path does not exist, and only otherwise await client.send_file.  The
second component counts how many upload calls were attempted. -/
def send_file (connect : Except String Unit) (fileExists : String → Bool)
    (upload : Except String SendResult) (filePath : String) :
    Except String SendResult × Nat :=
  match connect with
  | .error e => (.error e, 0)
  | .ok _ =>
    if !fileExists filePath then
      (.error ("File not found: " ++ filePath), 0)
    else
      match upload with
      | .ok r => (.ok r, 1)
      | .error e => (.error e, 1)

/-- UserClient.delete_messages: await connect, await
client.delete_messages (whose own affected count is ignored), then
report the length of the requested id list. -/
def delete_messages (connect : Except String Unit)
    (backendDelete : Except String Nat) (messageIds : List Int) :
    Except String DeleteResult :=
  match connect with
  | .error e => .error e
  | .ok _ =>
    match backendDelete with
    | .error e => .error e
    | .ok _ => .ok ⟨messageIds.length⟩

/-- Entity attached to a dialog, as user/client.py distinguishes it:
a User (with optional username), a Chat, a Channel (broadcast flag), or
anything else (the if/elif chain then sets no type key). -/
inductive DialogEntity
  | user (username : Option String)
  | chat
  | channel (broadcast : Bool)
  | otherEntity
deriving DecidableEq, Repr

/-- One dialog of the backend-ordered stream yielded by iter_dialogs
(most recently active first); dialog.name may be None. -/
structure Dialog where
  id : Int
  name : Option String
  unread_count : Int
  entity : DialogEntity
deriving DecidableEq, Repr

/-- The dialog_data dict built by UserClient.search_dialogs.  type and
username keys are absent (none) when not set by the if/elif chain; the
username key is set (possibly to None) exactly for User entities. -/
structure DialogDict where
  id : Int
  name : Option String
  unread_count : Int
  typeField : Option String
  usernameField : Option (Option String)
deriving DecidableEq, Repr

/-- Dict construction of UserClient.search_dialogs for one dialog. -/
def dialogToDict (d : Dialog) : DialogDict :=
  match d.entity with
  | .user u => ⟨d.id, d.name, d.unread_count, some "user", some u⟩
  | .chat => ⟨d.id, d.name, d.unread_count, some "group", none⟩
  | .channel true => ⟨d.id, d.name, d.unread_count, some "channel", none⟩
  | .channel false => ⟨d.id, d.name, d.unread_count, some "supergroup", none⟩
  | .otherEntity => ⟨d.id, d.name, d.unread_count, none, none⟩

/-- Does the list start with the given chunk (element-wise equality). -/
def chunkStarts : List Char → List Char → Bool
  | [], _ => true
  | _ :: _, [] => false
  | a :: as, b :: bs => (a == b) && chunkStarts as bs

/-- Substring containment over character lists (the Python operator
needle in hay). -/
def containsSub (needle : List Char) : List Char → Bool
  | [] => needle.isEmpty
  | c :: rest => chunkStarts needle (c :: rest) || containsSub needle rest

/-- Python needle in hay on strings: contiguous substring containment. -/
def pyInStr (needle hay : String) : Bool :=
  containsSub needle.toList hay.toList

/-- The filter condition of UserClient.search_dialogs, as a predicate: a
dialog passes when the query is empty, or when the lowercased query is a
substring of the lowercased display name (dialog.name or ""). -/
def matchesQuery (q : String) (d : Dialog) : Bool :=
  (q == "") || pyInStr q.toLower (d.name.getD "").toLower

/-- The iteration loop of UserClient.search_dialogs: for each dialog of
the scanned stream, a non-empty query whose lowercase form is not a
substring of the lowercase display name skips the dialog (continue);
otherwise the dict is appended, and the loop breaks as soon as the
result list has reached limit entries. -/
def searchDialogsLoop (q : String) (lim : Nat) :
    List Dialog → List DialogDict → List DialogDict
  | [], acc => acc
  | d :: rest, acc =>
    if (q != "") && !(pyInStr q.toLower (d.name.getD "").toLower) then
      searchDialogsLoop q lim rest acc
    else
      if lim ≤ (acc ++ [dialogToDict d]).length then acc ++ [dialogToDict d]
      else searchDialogsLoop q lim rest (acc ++ [dialogToDict d])

/-- UserClient.search_dialogs: iter_dialogs(limit=limit) yields at most
limit dialogs of the backend-ordered stream, which the loop filters. -/
def search_dialogs (stream : List Dialog) (q : String) (lim : Nat) :
    List DialogDict :=
  searchDialogsLoop q lim (stream.take lim) []

/-- Content of the daemon PID record file: a parsable integer PID, or
garbage text on which int() raises ValueError. -/
inductive RecordContent
  | valid (pid : Nat)
  | garbage
deriving DecidableEq, Repr

/-- Observable side effects of run_daemon, in order: writing the PID
record, the backend connect performed by the startup get_me call, and
starting to serve HTTP. -/
inductive DEvent
  | writeRecord
  | connectBackend
  | serveHttp
deriving DecidableEq, Repr

/-- Terminal report of one run_daemon invocation. -/
inductive StartOutcome
  | notConfigured
  | alreadyRunning (pid : Nat)
  | connectFailed
  | serving
deriving DecidableEq, Repr

/-- World state run_daemon starts from: whether user credentials are
configured, the PID record file content (none when absent), which PIDs
are alive (os.kill(pid, 0) succeeding), whether the startup get_me round
trip raises, and whether the session is authorized (telethon get_me
returns a user rather than None). -/
structure StartWorld where
  hasUser : Bool
  record : Option RecordContent
  pidAlive : Nat → Bool
  connectOk : Bool
  authorized : Bool

/-- Result of one run_daemon invocation: the outcome, the record file
content afterwards, the ordered event trace, how many UserClient
instances were constructed, and (when serving) whether the session
serving was actually authorized. -/
structure StartResult where
  outcome : StartOutcome
  recordAfter : Option RecordContent
  events : List DEvent
  clientsConstructed : Nat
  servingAuthorized : Option Bool
deriving DecidableEq, Repr

/-- Tail of daemon.py run_daemon after the configured and already-running
checks: write the PID record, construct the UserClient, and call get_me
(which connects); on an exception unlink the record and exit, otherwise
serve.  The get_me call does not raise for an unauthorized session (it
returns an empty dict), so serving starts regardless of authorization. -/
def runDaemonTail (w : StartWorld) (selfPid : Nat) : StartResult :=
  if w.connectOk then
    ⟨.serving, some (.valid selfPid),
      [.writeRecord, .connectBackend, .serveHttp], 1, some w.authorized⟩
  else
    ⟨.connectFailed, none, [.writeRecord, .connectBackend], 1, none⟩

/-- daemon.py run_daemon: require configured credentials; then, when the
record file holds a parsable PID of a live process, report already
running and exit; otherwise (dead PID, garbage content, or no file)
proceed with the startup tail. -/
def run_daemon (w : StartWorld) (selfPid : Nat) : StartResult :=
  if !w.hasUser then
    ⟨.notConfigured, w.record, [], 0, none⟩
  else
    match w.record with
    | some (.valid p) =>
      if w.pidAlive p then ⟨.alreadyRunning p, w.record, [], 0, none⟩
      else runDaemonTail w selfPid
    | some .garbage => runDaemonTail w selfPid
    | none => runDaemonTail w selfPid

/-- Does every record write of the trace come after a backend connect. -/
def writeOnlyAfterConnectFrom : Bool → List DEvent → Bool
  | _, [] => true
  | _, .connectBackend :: rest => writeOnlyAfterConnectFrom true rest
  | seen, .writeRecord :: rest => seen && writeOnlyAfterConnectFrom seen rest
  | seen, _ :: rest => writeOnlyAfterConnectFrom seen rest

/-- Does every record write of the trace come after a backend connect
(no connect seen yet at the start). -/
def writeOnlyAfterConnect (evs : List DEvent) : Bool :=
  writeOnlyAfterConnectFrom false evs

/-- Report printed by daemon.py daemon_stop. -/
inductive StopReport
  | notRunning
  | sentSigterm (pid : Nat)
  | failedToStop
deriving DecidableEq, Repr

/-- Result of daemon.py daemon_stop: the report and the record file
content afterwards. -/
structure StopResult where
  report : StopReport
  recordAfter : Option RecordContent
deriving DecidableEq, Repr

/-- daemon.py daemon_stop: no record file reports not running; otherwise
parse the PID and send SIGTERM.  int() raising ValueError on garbage, or
os.kill raising OSError on a dead PID, is caught: the handler prints a
failed-to-stop message and unlinks the record.  A live PID gets SIGTERM
and the record is left for the daemon itself to remove on shutdown. -/
def daemon_stop (record : Option RecordContent) (pidAlive : Nat → Bool) :
    StopResult :=
  match record with
  | none => ⟨.notRunning, none⟩
  | some .garbage => ⟨.failedToStop, none⟩
  | some (.valid pid) =>
    if pidAlive pid then ⟨.sentSigterm pid, some (.valid pid)⟩
    else ⟨.failedToStop, none⟩

/-- The get_messages loop is exactly a filterMap over the fetched
stream: real messages map to dicts, pseudo-messages are dropped. -/
theorem getMessagesLoop_eq_filterMap (l : List RawMessage) :
    getMessagesLoop l = l.filterMap msgDictOf := by
  induction l with
  | nil => rfl
  | cons m rest ih =>
    cases m <;> simp [getMessagesLoop, msgDictOf, List.filterMap_cons, ih]

/-- C7: get_messages returns exactly the real user messages of the
fetched stream, with service pseudo-messages and empty placeholders
filtered out and never appearing in the result (the result is the
filterMap keeping real messages only); in particular a raw stream of 3
real messages and 2 service events yields exactly 3 entries. -/
theorem get_messages_excludes_service_and_placeholder :
    (∀ (stream : List RawMessage) (limit : Nat),
      get_messages stream limit = (stream.take limit).filterMap msgDictOf)
    ∧ (get_messages
        [.message 1 none (some "a") none none, .service,
          .message 2 none (some "b") none none, .service,
          .message 3 none (some "c") none none] 10).length = 3 := by
  constructor
  · intro stream limit
    unfold get_messages
    exact getMessagesLoop_eq_filterMap _
  · rfl

/-- C8: delete_messages reports a deleted count equal to the number of
identifiers requested, whatever count the backend itself removed
(best-effort delete); in particular deleting [1, 2, 3] against a backend
that only removed 2 of them still reports deleted = 3. -/
theorem delete_messages_reports_requested_count :
    ∀ (backendRemoved : Nat) (ids : List Int),
      delete_messages (.ok ()) (.ok backendRemoved) ids = .ok ⟨ids.length⟩
      ∧ delete_messages (.ok ()) (.ok 2) [1, 2, 3] = .ok ⟨3⟩ := by
  intro backendRemoved ids
  exact ⟨rfl, rfl⟩

/-- C10: when the backend round trip succeeds but reports no current
user (me is None, for example an unauthorized session), get_me returns
the empty dict and does not raise (the result is ok, not an error). -/
theorem get_me_no_user_returns_empty_dict :
    get_me (.ok ()) (.ok none) = .ok [] := rfl

/-- C9: an edit_message control request whose text is present but empty,
or whose message_id equals 0, is rejected by the Python truthiness check
exactly like a missing field: ok=false with the combined required-fields
error and zero backend calls, identical to the all-fields-missing
response, so the control channel never edits a message to an empty body. -/
theorem edit_message_empty_text_or_zero_id_rejected
    (be : String → Int → String → Except String EditResult)
    (entity : Option String) (messageId : Option Int) (text : Option String)
    (h : text = some "" ∨ messageId = some 0) :
    handle_edit_message be entity messageId text
        = ⟨false, some "entity, message_id, and text are required", 400, none, 0⟩
    ∧ handle_edit_message be entity messageId text
        = handle_edit_message be none none none := by
  have hrej : handle_edit_message be entity messageId text
      = ⟨false, some "entity, message_id, and text are required", 400, none, 0⟩ := by
    rcases h with h | h <;> subst h <;>
      simp [handle_edit_message, truthyStr, truthyInt]
  exact ⟨hrej, by rw [hrej]; rfl⟩

/-- C9 witness: concrete instance with entity and message_id present and
text present but empty. -/
theorem edit_message_empty_text_or_zero_id_rejected_witness :
    handle_edit_message (fun _ _ _ => .ok ⟨1⟩) (some "@user") (some 5) (some "")
        = ⟨false, some "entity, message_id, and text are required", 400, none, 0⟩
    ∧ handle_edit_message (fun _ _ _ => .ok ⟨1⟩) (some "@user") (some 5) (some "")
        = handle_edit_message (fun _ _ _ => .ok ⟨1⟩) none none none :=
  edit_message_empty_text_or_zero_id_rejected _ _ _ _ (Or.inl rfl)

/-- C4 counterexample: a send_file request for a path that exists but is
not readable (so the path does not resolve to an existing readable
file): Path(file_path).exists() checks existence only, so the handler
passes the check and attempts a backend call (one call, not zero), and
the failure surfaces as the backend error, not as File not found. -/
theorem send_file_existing_unreadable_path_attempts_backend :
    pathExistsPy ⟨fun p => p == "/tmp/noperm.bin", fun _ => false⟩
        "/tmp/noperm.bin" = true
    ∧ (⟨fun p => p == "/tmp/noperm.bin", fun _ => false⟩ : FsWorld).readable
        "/tmp/noperm.bin" = false
    ∧ (handle_send_file
        (pathExistsPy ⟨fun p => p == "/tmp/noperm.bin", fun _ => false⟩)
        (fun _ _ _ _ => .error "Permission denied") (some "@user")
        (some "/tmp/noperm.bin") "" false).backendCalls = 1
    ∧ (handle_send_file
        (pathExistsPy ⟨fun p => p == "/tmp/noperm.bin", fun _ => false⟩)
        (fun _ _ _ _ => .error "Permission denied") (some "@user")
        (some "/tmp/noperm.bin") "" false).error = some "Permission denied" := by
  refine ⟨by decide, rfl, by decide, by decide⟩

/-- C4 (amended): a send_file control request whose path fails the
existence check (Path(file_path).exists() false, in particular every
nonexistent path) fails with the File not found error before any
backend call is attempted (zero backend calls), and UserClient.send_file
itself raises FileNotFoundError before attempting the upload (zero
upload calls), so no partial upload can happen; readability beyond
existence is not checked. -/
theorem send_file_missing_file_fails_before_backend
    (fe : String → Bool)
    (bf : String → String → String → Bool → Except String SendResult)
    (upload : Except String SendResult)
    (entity filePath : Option String) (caption : String) (voice : Bool)
    (he : truthyStr entity = true) (hf : truthyStr filePath = true)
    (hmiss : fe (filePath.getD "") = false) :
    handle_send_file fe bf entity filePath caption voice
        = ⟨false, some ("File not found: " ++ filePath.getD ""), 400, none, 0⟩
    ∧ send_file (.ok ()) fe upload (filePath.getD "")
        = (.error ("File not found: " ++ filePath.getD ""), 0) := by
  constructor
  · simp [handle_send_file, he, hf, hmiss]
  · simp [send_file, hmiss]

/-- C4 witness: concrete request for a path the filesystem does not
contain. -/
theorem send_file_missing_file_fails_before_backend_witness :
    handle_send_file (fun _ => false) (fun _ _ _ _ => .ok ⟨1, 2⟩)
        (some "@user") (some "/tmp/missing.txt") "" false
        = ⟨false, some ("File not found: " ++ (some "/tmp/missing.txt").getD ""),
            400, none, 0⟩
    ∧ send_file (.ok ()) (fun _ => false) (.ok ⟨1, 2⟩)
        ((some "/tmp/missing.txt" : Option String).getD "")
        = (.error ("File not found: " ++ (some "/tmp/missing.txt").getD ""), 0) :=
  send_file_missing_file_fails_before_backend _ _ _ _ _ _ _
    (by decide) (by decide) rfl

/-- C2 counterexample: a download_media request with only entity missing
answers with the combined message naming all three required fields, not
with an error of the form entity is required. -/
theorem download_media_missing_entity_error_lists_all_fields :
    (handle_download_media (fun _ _ _ => .ok ⟨"out"⟩) none (some 5)
        (some "/tmp/out")).error
      = some "entity, message_id, and save_path are required"
    ∧ (handle_download_media (fun _ _ _ => .ok ⟨"out"⟩) none (some 5)
        (some "/tmp/out")).error ≠ some "entity is required" := by
  exact ⟨rfl, by decide⟩

/-- C2 (amended): every POST control request missing a required field is
answered ok=false with HTTP 400 and zero backend calls; the error names
the full required-field list of that handler (only the single-required-
field handlers phrase it as field is required). -/
theorem control_missing_required_field_rejected
    (bs : String → String → Option Int → Except String SendResult)
    (fe : String → Bool)
    (bf : String → String → String → Bool → Except String SendResult)
    (bg : String → Nat → Except String (List MsgDict))
    (bd : String → Int → String → Except String DownloadResult)
    (be : String → Int → String → Except String EditResult)
    (bdel : String → List Int → Except String DeleteResult)
    (e1 : Option String) (m1 : String) (r1 : Option Int)
    (e2 fp2 : Option String) (cap2 : String) (v2 : Bool)
    (e3 : Option String) (l3 : Nat)
    (e4 : Option String) (m4 : Option Int) (s4 : Option String)
    (e5 : Option String) (m5 : Option Int) (t5 : Option String)
    (e6 : Option String) (ids6 : List Int)
    (h1 : truthyStr e1 = false)
    (h2 : truthyStr e2 = false ∨ truthyStr fp2 = false)
    (h3 : truthyStr e3 = false)
    (h4 : truthyStr e4 = false ∨ truthyInt m4 = false ∨ truthyStr s4 = false)
    (h5 : truthyStr e5 = false ∨ truthyInt m5 = false ∨ truthyStr t5 = false)
    (h6 : truthyStr e6 = false ∨ ids6.isEmpty = true) :
    handle_send_message bs e1 m1 r1
        = ⟨false, some "entity is required", 400, none, 0⟩
    ∧ handle_send_file fe bf e2 fp2 cap2 v2
        = ⟨false, some "entity and file_path are required", 400, none, 0⟩
    ∧ handle_get_messages bg e3 l3
        = ⟨false, some "entity is required", 400, none, 0⟩
    ∧ handle_download_media bd e4 m4 s4
        = ⟨false, some "entity, message_id, and save_path are required", 400, none, 0⟩
    ∧ handle_edit_message be e5 m5 t5
        = ⟨false, some "entity, message_id, and text are required", 400, none, 0⟩
    ∧ handle_delete_messages bdel e6 ids6
        = ⟨false, some "entity and message_ids are required", 400, none, 0⟩ := by
  refine ⟨?_, ?_, ?_, ?_, ?_, ?_⟩
  · simp [handle_send_message, h1]
  · rcases h2 with h | h <;> simp [handle_send_file, h]
  · simp [handle_get_messages, h3]
  · rcases h4 with h | h | h <;> simp [handle_download_media, h]
  · rcases h5 with h | h | h <;> simp [handle_edit_message, h]
  · rcases h6 with h | h <;> simp [handle_delete_messages, h]

/-- C2 witness: one concrete missing-field request per handler. -/
theorem control_missing_required_field_rejected_witness :
    handle_send_message (fun _ _ _ => .ok ⟨1, 2⟩) none "hi" none
        = ⟨false, some "entity is required", 400, none, 0⟩
    ∧ handle_send_file (fun _ => true) (fun _ _ _ _ => .ok ⟨1, 2⟩)
        (some "@u") none "" false
        = ⟨false, some "entity and file_path are required", 400, none, 0⟩
    ∧ handle_get_messages (fun _ _ => .ok []) (some "") 10
        = ⟨false, some "entity is required", 400, none, 0⟩
    ∧ handle_download_media (fun _ _ _ => .ok ⟨"p"⟩) (some "@u") (some 0)
        (some "/tmp/o")
        = ⟨false, some "entity, message_id, and save_path are required", 400, none, 0⟩
    ∧ handle_edit_message (fun _ _ _ => .ok ⟨1⟩) (some "@u") (some 3) none
        = ⟨false, some "entity, message_id, and text are required", 400, none, 0⟩
    ∧ handle_delete_messages (fun _ _ => .ok ⟨0⟩) (some "@u") []
        = ⟨false, some "entity and message_ids are required", 400, none, 0⟩ :=
  control_missing_required_field_rejected _ _ _ _ _ _ _ _ _ _ _ _ _ _ _ _ _ _ _ _ _ _ _ _
    (by decide) (Or.inr (by decide)) (by decide)
    (Or.inr (Or.inl (by decide))) (Or.inr (Or.inr (by decide))) (Or.inr (by decide))

/-- The continue condition of the search loop is the negation of the
matchesQuery predicate. -/
theorem searchCond_eq (q : String) (d : Dialog) :
    ((q != "") && !(pyInStr q.toLower (d.name.getD "").toLower))
      = !(matchesQuery q d) := by
  unfold matchesQuery
  cases hq : (q == "") <;>
    cases hp : pyInStr q.toLower (d.name.getD "").toLower <;>
      simp [bne, hq, hp]

/-- The search loop collects exactly the matching dialogs of the scanned
list, provided the accumulator plus all remaining matches fit under the
limit (the break can then only fire when nothing more would match). -/
theorem searchDialogsLoop_spec (q : String) (lim : Nat) :
    ∀ (l : List Dialog) (acc : List DialogDict),
      acc.length + (l.filter (matchesQuery q)).length ≤ lim →
      searchDialogsLoop q lim l acc
        = acc ++ (l.filter (matchesQuery q)).map dialogToDict := by
  intro l
  induction l with
  | nil =>
    intro acc _
    simp [searchDialogsLoop]
  | cons d rest ih =>
    intro acc h
    cases hm : matchesQuery q d with
    | false =>
      have hc : ((q != "") && !(pyInStr q.toLower (d.name.getD "").toLower))
          = true := by rw [searchCond_eq, hm]; rfl
      rw [searchDialogsLoop, if_pos hc]
      have hfil : List.filter (matchesQuery q) (d :: rest)
          = List.filter (matchesQuery q) rest := by
        simp [List.filter_cons, hm]
      rw [hfil] at h ⊢
      exact ih acc h
    | true =>
      have hc : ((q != "") && !(pyInStr q.toLower (d.name.getD "").toLower))
          = false := by rw [searchCond_eq, hm]; rfl
      rw [searchDialogsLoop, if_neg (by simp [hc])]
      have hfil : List.filter (matchesQuery q) (d :: rest)
          = d :: List.filter (matchesQuery q) rest := by
        simp [List.filter_cons, hm]
      rw [hfil] at h ⊢
      simp only [List.length_cons] at h
      by_cases hbreak : lim ≤ (acc ++ [dialogToDict d]).length
      · have hnil : List.filter (matchesQuery q) rest = [] := by
          have : (List.filter (matchesQuery q) rest).length = 0 := by
            simp [List.length_append] at hbreak
            omega
          exact List.length_eq_zero.mp this
        rw [if_pos hbreak, hnil]
        simp
      · rw [if_neg hbreak]
        have h2 : (acc ++ [dialogToDict d]).length
            + (List.filter (matchesQuery q) rest).length ≤ lim := by
          simp only [List.length_append, List.length_singleton]
          omega
        rw [ih (acc ++ [dialogToDict d]) h2]
        simp

/-- C6: search_dialogs is a client-side filter over the scanned prefix
of the backend-ordered dialog stream: the result equals the matching
dialogs of the first limit stream entries, mapped to dicts in stream
order; with an empty query that is just the first limit dialogs in
backend-recency order; every returned entry has a display name matched
case-insensitively by the query (the filter predicate looks only at the
name, never at handles or message content); and never more than limit
entries are returned, matching stopping once limit matches are
collected. -/
theorem search_dialogs_client_side_filter :
    ∀ (stream : List Dialog) (q : String) (lim : Nat),
      search_dialogs stream q lim
          = ((stream.take lim).filter (matchesQuery q)).map dialogToDict
      ∧ search_dialogs stream "" lim = (stream.take lim).map dialogToDict
      ∧ (search_dialogs stream q lim).length ≤ lim := by
  have main : ∀ (q : String) (lim : Nat) (stream : List Dialog),
      search_dialogs stream q lim
        = ((stream.take lim).filter (matchesQuery q)).map dialogToDict := by
    intro q lim stream
    unfold search_dialogs
    refine searchDialogsLoop_spec q lim _ [] ?_
    simpa using
      le_trans (List.length_filter_le _ _) (List.length_take_le _ _)
  intro stream q lim
  refine ⟨main q lim stream, ?_, ?_⟩
  · rw [main "" lim stream]
    have hall : ∀ d, matchesQuery "" d = true := by
      intro d
      simp [matchesQuery]
    rw [List.filter_eq_self.mpr (fun a _ => hall a)]
  · rw [main q lim stream]
    simpa using
      le_trans (List.length_filter_le _ _) (List.length_take_le _ _)

/-- C1 counterexample: on a fully benign start (credentials configured,
no pre-existing record, connect succeeds) the event trace writes the PID
record strictly before the backend connect, so the record is not written
only after the connection is acquired; moreover the same start reaches
serving with an unauthorized session (authorization success is never a
precondition of writing the record or of serving). -/
theorem run_daemon_writes_record_before_connect :
    writeOnlyAfterConnect
        (run_daemon ⟨true, none, fun _ => false, true, false⟩ 7).events = false
    ∧ (run_daemon ⟨true, none, fun _ => false, true, false⟩ 7).outcome
        = .serving
    ∧ (run_daemon ⟨true, none, fun _ => false, true, false⟩ 7).servingAuthorized
        = some false :=
  ⟨rfl, rfl, rfl⟩

/-- C1 (amended): the PID record is written after the configured and
already-running checks but before the backend connect (when the trace is
non-empty it starts with the record write); every start that does not
reach serving either performed no effect at all and left the record file
unchanged, or removed the record before exiting, so a failed start never
leaves behind a record it wrote. -/
theorem run_daemon_failed_start_record_state :
    ∀ (w : StartWorld) (selfPid : Nat),
      ((run_daemon w selfPid).outcome = .serving
        ∨ ((run_daemon w selfPid).recordAfter = w.record
            ∧ (run_daemon w selfPid).events = [])
        ∨ (run_daemon w selfPid).recordAfter = none)
      ∧ ((run_daemon w selfPid).events = []
        ∨ (run_daemon w selfPid).events.head? = some .writeRecord) := by
  intro w selfPid
  cases hU : w.hasUser with
  | false => simp [run_daemon, hU]
  | true =>
    cases hR : w.record with
    | none =>
      cases hC : w.connectOk <;>
        simp [run_daemon, runDaemonTail, hU, hR, hC]
    | some rc =>
      cases rc with
      | garbage =>
        cases hC : w.connectOk <;>
          simp [run_daemon, runDaemonTail, hU, hR, hC]
      | valid p =>
        cases hA : w.pidAlive p <;> cases hC : w.connectOk <;>
          simp [run_daemon, runDaemonTail, hU, hR, hA, hC]

/-- C5 counterexample: invoking start while the record exists and the
recorded process is alive, but with user credentials unconfigured,
reports not configured instead of already running (the configured check
runs before the record check). -/
theorem run_daemon_alive_record_unconfigured_report :
    (run_daemon ⟨false, some (.valid 3), fun _ => true, true, true⟩ 7).outcome
        = .notConfigured
    ∧ (run_daemon ⟨false, some (.valid 3), fun _ => true, true, true⟩ 7).outcome
        ≠ .alreadyRunning 3 :=
  ⟨rfl, by decide⟩

/-- C5 (amended): a start invoked while the record holds a live PID is a
no-op: it constructs no UserClient (hence no second backend connection),
performs no effect, leaves the record unchanged, and, provided the user
credentials are configured, reports already running with the recorded
PID (an unconfigured start instead fails fast with a not-configured
report, still constructing no connection). -/
theorem run_daemon_alive_record_is_noop
    (w : StartWorld) (selfPid p : Nat)
    (hrec : w.record = some (.valid p)) (halive : w.pidAlive p = true) :
    (run_daemon w selfPid).clientsConstructed = 0
    ∧ (run_daemon w selfPid).events = []
    ∧ (run_daemon w selfPid).recordAfter = w.record
    ∧ (w.hasUser = true → (run_daemon w selfPid).outcome = .alreadyRunning p) := by
  cases hU : w.hasUser with
  | false => simp [run_daemon, hU]
  | true => simp [run_daemon, hU, hrec, halive]

/-- C5 witness: a configured world with a live recorded PID. -/
theorem run_daemon_alive_record_is_noop_witness :
    (run_daemon ⟨true, some (.valid 3), fun _ => true, true, true⟩ 7).clientsConstructed = 0
    ∧ (run_daemon ⟨true, some (.valid 3), fun _ => true, true, true⟩ 7).events = []
    ∧ (run_daemon ⟨true, some (.valid 3), fun _ => true, true, true⟩ 7).recordAfter
        = (⟨true, some (.valid 3), fun _ => true, true, true⟩ : StartWorld).record
    ∧ ((⟨true, some (.valid 3), fun _ => true, true, true⟩ : StartWorld).hasUser = true →
        (run_daemon ⟨true, some (.valid 3), fun _ => true, true, true⟩ 7).outcome
          = .alreadyRunning 3) :=
  run_daemon_alive_record_is_noop _ 7 3 rfl rfl

/-- C3 counterexample: stop invoked while the record file exists but the
recorded process is dead reports the failed-to-stop diagnostic, not the
not-running report. -/
theorem daemon_stop_stale_record_not_reported_not_running :
    (daemon_stop (some (.valid 42)) (fun _ => false)).report ≠ .notRunning
    ∧ (daemon_stop (some (.valid 42)) (fun _ => false)).report = .failedToStop :=
  ⟨by decide, rfl⟩

/-- C3 (amended): stop on a stale record (recorded process not alive)
does not raise: the OSError from the kill is caught, the stale record
file is removed, and a failed-to-stop diagnostic is printed; the
not-running report is produced only when the record file is absent. -/
theorem daemon_stop_stale_record_behavior
    (p : Nat) (alive : Nat → Bool) (h : alive p = false) :
    daemon_stop (some (.valid p)) alive = ⟨.failedToStop, none⟩
    ∧ daemon_stop none alive = ⟨.notRunning, none⟩ := by
  constructor
  · simp [daemon_stop, h]
  · rfl

/-- C3 witness: a concrete stale record with PID 42 and no live
process. -/
theorem daemon_stop_stale_record_behavior_witness :
    daemon_stop (some (.valid 42)) (fun _ => false) = ⟨.failedToStop, none⟩
    ∧ daemon_stop none (fun _ => false) = ⟨.notRunning, none⟩ :=
  daemon_stop_stale_record_behavior 42 (fun _ => false) rfl
